import Mathlib

/-!
Verification development for the `pokemon_grading_tool` repository
(`grading_api` Django app).  The definitions below are a shallow
embedding of the Python source:

* `models.py`   — `PokemonCard` (with the `price_delta` / `profit_potential`
  properties) and `ScrapeLog` (with `complete` / `fail`);
* `scraper.py`  — `calculate_average_price`, `extract_product_id`,
  `extract_card_data`, and the per-listing reconciliation step of
  `process_card_batch`;
* `views.py`    — `_process_card_data`, `_save_card_to_db`
  (Django `update_or_create`), `_create_card_details`,
  `_scrape_and_save_async`, and `_scrape_all_sets_async`.

Machine floats of the source are modelled as `ℚ`; Python `None` as
`Option.none`; timestamps as `ℤ` (an abstract clock, passed explicitly
where the source calls `timezone.now()` / `datetime.now()`).  I/O
results (scraped pages, auction estimates, per-set outcomes) are passed
in as explicit arguments, so every function is pure and executable.
-/

/-! ### String utilities

Python's `term in title` substring test and `str.split()` (split on
whitespace runs, dropping empties), used by `extract_card_data` and
`_create_card_details`. -/

/-- Does `hay` start with `pat`?  (Character-list version.) -/
def startsWithChars : List Char → List Char → Bool
  | _, [] => true
  | [], _ :: _ => false
  | c :: cs, p :: ps => c == p && startsWithChars cs ps

/-- Does `pat` occur contiguously inside `hay`?  Models Python's
`pat in hay` on strings. -/
def containsChars (pat : List Char) : List Char → Bool
  | [] => pat.isEmpty
  | c :: cs => startsWithChars (c :: cs) pat || containsChars pat cs

/-- Python `pat in s` (substring containment). -/
def containsSubstr (s pat : String) : Bool :=
  containsChars pat.toList s.toList

/-- Whitespace stripped from both ends of a character list. -/
def trimChars (cs : List Char) : List Char :=
  ((cs.dropWhile Char.isWhitespace).reverse.dropWhile Char.isWhitespace).reverse

/-- Python `s.strip()`. -/
def strTrim (s : String) : String := String.mk (trimChars s.toList)

/-- Python `s.lower()` (ASCII, which covers the sources' inputs). -/
def strToLower (s : String) : String := String.mk (s.toList.map Char.toLower)

/-- Helper for `splitTerms`: accumulate the current (reversed) word. -/
def splitTermsAux : List Char → List Char → List String
  | [], acc => if acc = [] then [] else [String.mk acc.reverse]
  | c :: cs, acc =>
    if c.isWhitespace then
      (if acc = [] then splitTermsAux cs []
       else String.mk acc.reverse :: splitTermsAux cs [])
    else splitTermsAux cs (c :: acc)

/-- Python `s.split()` : split on whitespace runs, dropping empties. -/
def splitTerms (s : String) : List String := splitTermsAux s.toList []

/-! ### Data classes of `scraper.py` -/

/-- `scraper.CardDetails` (dataclass). -/
structure CardDetails where
  name : String
  set_name : String
  language : String
  product_id : Option String
deriving DecidableEq

/-- `scraper.CardPriceData` (dataclass).  `last_updated : Option ℤ` is the
abstract timestamp set from `datetime.now()`. -/
structure CardPriceData where
  card_name : String
  set_name : String
  language : String
  rarity : String
  tcgplayer_price : Option ℚ
  product_id : Option String
  psa_10_price : Option ℚ
  price_delta : Option ℚ
  profit_potential : Option ℚ
  last_updated : Option ℤ
deriving DecidableEq

/-! ### `models.PokemonCard` -/

/-- The persistent `PokemonCard` row (`models.py`).  Nullable Django
fields become `Option`; `DecimalField` prices become `ℚ`;
`DateTimeField`s become `ℤ` timestamps. -/
structure PokemonCard where
  card_name : String
  set_name : String
  product_id : Option String
  card_number : String
  language : String
  rarity : String
  tcgplayer_price : Option ℚ
  tcgplayer_market_price : Option ℚ
  tcgplayer_last_pulled : Option ℤ
  psa_10_price : Option ℚ
  ebay_last_pulled : Option ℤ
  is_active : Bool
  last_updated : Option ℤ
deriving DecidableEq

/-- `PokemonCard.price_delta` property: `None` unless both prices are
present, else `psa_10_price - tcgplayer_price`. -/
def PokemonCard.price_delta (c : PokemonCard) : Option ℚ :=
  match c.psa_10_price, c.tcgplayer_price with
  | some p, some t => some (p - t)
  | _, _ => none

/-- `PokemonCard.profit_potential` property.  The Python guard
`if (delta := self.price_delta) is not None and self.tcgplayer_price:`
uses truthiness (`Decimal 0` is falsy), then returns
`(delta / tcg) * 100 if tcg > 0 else None`. -/
def PokemonCard.profit_potential (c : PokemonCard) : Option ℚ :=
  match c.price_delta, c.tcgplayer_price with
  | some d, some t =>
      if t ≠ 0 then (if 0 < t then some (d / t * 100) else none) else none
  | _, _ => none

/-! ### `models.ScrapeLog` -/

/-- `ScrapeLog.Status` text choices (`partiallyCompleted` stands for the
source's `PARTIAL` / `'partial'` choice, whose name is reserved in
Lean). -/
inductive Status where
  | in_progress
  | completed
  | failed
  | partiallyCompleted
deriving DecidableEq

/-- The `ScrapeLog` row.  `started_at`/`completed_at` are abstract `ℤ`
timestamps; `execution_time` is the stored `DurationField`. -/
structure ScrapeLog where
  started_at : ℤ
  completed_at : Option ℤ
  user : String
  status : Status
  total_cards_attempted : ℕ
  total_cards_updated : ℕ
  total_cards_failed : ℕ
  error_message : Option String
  retry_count : ℕ
  execution_time : Option ℤ
deriving DecidableEq

/-- A freshly created `ScrapeLog.objects.create(user=...)` row: status
`in_progress`, all counters 0, no completion data. -/
def freshLog (started : ℤ) (user : String) : ScrapeLog :=
  { started_at := started
    completed_at := none
    user := user
    status := Status.in_progress
    total_cards_attempted := 0
    total_cards_updated := 0
    total_cards_failed := 0
    error_message := none
    retry_count := 0
    execution_time := none }

/-- `ScrapeLog.complete(attempted, updated, failed=0)`: stamps
`completed_at = now`, sets status `completed` (then overridden to
`partial` when `failed > 0`), stores the counters and
`execution_time = completed_at - started_at`, and saves. -/
def ScrapeLog.complete (log : ScrapeLog) (attempted updated failed : ℕ)
    (now : ℤ) : ScrapeLog :=
  { log with
    completed_at := some now
    status := if 0 < failed then Status.partiallyCompleted else Status.completed
    total_cards_attempted := attempted
    total_cards_updated := updated
    total_cards_failed := failed
    execution_time := some (now - log.started_at) }

/-- `ScrapeLog.fail(error_message)`: stamps `completed_at = now`, sets
status `failed`, records the message and the execution time. -/
def ScrapeLog.fail (log : ScrapeLog) (msg : String) (now : ℤ) : ScrapeLog :=
  { log with
    completed_at := some now
    status := Status.failed
    error_message := some msg
    execution_time := some (now - log.started_at) }

/-! ### `scraper.calculate_average_price` -/

/-- `scraper.calculate_average_price(prices)`: `None` on an empty list;
plain mean for fewer than 3 prices; otherwise sort, take Q1/Q3 at
indices `max 0 (len // 4)` and `min (len - 1) (3 * len // 4)`, keep the
prices inside `[Q1 - 1.5·IQR, Q3 + 1.5·IQR]`, and average those, falling
back to the mean of all prices when nothing survives. -/
def calculate_average_price (prices : List ℚ) : Option ℚ :=
  if prices = [] then none
  else if prices.length < 3 then some (prices.sum / prices.length)
  else
    let sorted := List.insertionSort (· ≤ ·) prices
    let q1_idx := max 0 (prices.length / 4)
    let q3_idx := min (prices.length - 1) (3 * prices.length / 4)
    let q1 := sorted.getD q1_idx 0
    let q3 := sorted.getD q3_idx 0
    let iqr := q3 - q1
    let lower_bound := q1 - 3/2 * iqr
    let upper_bound := q3 + 3/2 * iqr
    let filtered_prices :=
      sorted.filter (fun p => decide (lower_bound ≤ p ∧ p ≤ upper_bound))
    if filtered_prices = [] then some (sorted.sum / sorted.length)
    else some (filtered_prices.sum / filtered_prices.length)

/-- The estimate rule as the specification words it (three tiers, Q1/Q3
at positions `len/4` and `3·len/4` of the sorted list, no index
clamping).  Stated separately so the code can be proved to refine it. -/
def averagePriceSpec (prices : List ℚ) : Option ℚ :=
  if prices = [] then none
  else if prices.length < 3 then some (prices.sum / prices.length)
  else
    let sorted := List.insertionSort (· ≤ ·) prices
    let q1 := sorted.getD (prices.length / 4) 0
    let q3 := sorted.getD (3 * prices.length / 4) 0
    let iqr := q3 - q1
    let kept :=
      sorted.filter (fun p => decide (q1 - 3/2 * iqr ≤ p ∧ p ≤ q3 + 3/2 * iqr))
    if kept = [] then some (sorted.sum / sorted.length)
    else some (kept.sum / kept.length)

/-! ### `scraper.extract_product_id` -/

/-- Match the regex `/product/(\d+)/` at the head of `cs`: the literal
`/product/`, then a nonempty digit run, then `/`.  Returns the captured
digits. -/
def matchProductAt (cs : List Char) : Option String :=
  if startsWithChars cs "/product/".toList then
    let rest := cs.drop 9
    let digits := rest.takeWhile Char.isDigit
    if digits ≠ [] ∧ (rest.drop digits.length).head? = some '/' then
      some (String.mk digits)
    else none
  else none

/-- `re.search` for `/product/(\d+)/`: first position where the pattern
matches. -/
def searchProduct : List Char → Option String
  | [] => none
  | c :: cs =>
    match matchProductAt (c :: cs) with
    | some s => some s
    | none => searchProduct cs

/-- Match `/product/(\d+)/pokemon` at the head of `cs` (the source's
fallback pattern). -/
def matchProductPokemonAt (cs : List Char) : Option String :=
  if startsWithChars cs "/product/".toList then
    let rest := cs.drop 9
    let digits := rest.takeWhile Char.isDigit
    if digits ≠ [] ∧ startsWithChars (rest.drop digits.length) "/pokemon".toList then
      some (String.mk digits)
    else none
  else none

/-- `re.search` for the fallback pattern `/product/(\d+)/pokemon`. -/
def searchProductPokemon : List Char → Option String
  | [] => none
  | c :: cs =>
    match matchProductPokemonAt (c :: cs) with
    | some s => some s
    | none => searchProductPokemon cs

/-- `scraper.extract_product_id(url)`: `None` for an empty url; else the
first regex, falling back to the alternative pattern. -/
def extract_product_id (url : String) : Option String :=
  if url = "" then none
  else
    match searchProduct url.toList with
    | some s => some s
    | none => searchProductPokemon url.toList

/-! ### `scraper.extract_card_data`

The HTML lookups (`find(...)`) are abstracted into a record of the four
extracted pieces; the price text is taken as an already-parsed rational
(the source rejects unparsable text, which has no counterpart on `ℚ`). -/

/-- One parsed `div.search-result` element after the four `find` calls
succeeded: title text, parsed price, set-name text, and the detail-link
`href`. -/
structure ListingElement where
  title : String
  price : ℚ
  set_name : String
  product_url : String
deriving DecidableEq

/-- `scraper.extract_card_data` filter stage: reject price `≤ 0` or
`> 100000`; when the query has a name, require every lowercase
whitespace-separated term of it to occur in the lowercase title; reject
when no product id can be extracted; otherwise build `CardPriceData`. -/
def extract_card_data (elem : ListingElement) (card_details : CardDetails)
    (rarity : String) (now : ℤ) : Option CardPriceData :=
  if elem.price ≤ 0 ∨ elem.price > 100000 then none
  else if card_details.name ≠ "" ∧
      ¬ (splitTerms (strToLower card_details.name)).all
          (fun term => containsSubstr (strToLower (strTrim elem.title)) term)
    then none
  else
    match extract_product_id elem.product_url with
    | none => none
    | some pid =>
      some { card_name := strTrim elem.title
             set_name := strTrim elem.set_name
             language := card_details.language
             rarity := rarity
             tcgplayer_price := some elem.price
             product_id := some pid
             psa_10_price := none
             price_delta := none
             profit_potential := none
             last_updated := some now }

/-! ### `scraper.process_card_batch`

The fetching is abstracted: each surviving marketplace listing is paired
with the auction estimate `get_ebay_psa10_price_async` returned for it
(`none` models both "no prices found" and a swallowed fetch error). -/

/-- Per-listing body of the loop in `process_card_batch`.  Python's
`if ebay_price:` is truthiness: a `0.0` estimate takes the same branch
as `None`.  When the delta is computed, `ebay_price -
card_data.tcgplayer_price` would raise `TypeError` on a `None` market
price (the listing is then skipped by the `except` / `continue`), which
is modelled by returning `none`. -/
def reconcile_listing (card : CardPriceData) (ebay_price : Option ℚ) :
    Option CardPriceData :=
  match ebay_price with
  | none => some card
  | some p =>
    if p = 0 then some card
    else
      match card.tcgplayer_price with
      | none => none
      | some t =>
        some { card with
               psa_10_price := some p
               price_delta := some (p - t)
               profit_potential := some ((p - t) / t * 100) }

/-- `process_card_batch` over the already-fetched listings: emit every
listing the per-listing body produced. -/
def process_card_batch (listings : List (CardPriceData × Option ℚ)) :
    List CardPriceData :=
  listings.filterMap (fun le => reconcile_listing le.1 le.2)

/-! ### `views.PokemonCardViewSet._process_card_data` -/

/-- Python's `x or 0.0` on an optional float: `None` and `0.0` are both
falsy, anything else passes through. -/
def orZero (x : Option ℚ) : ℚ :=
  match x with
  | none => 0
  | some v => if v = 0 then 0 else v

/-- The dict built by `_process_card_data` (timestamps all set to
`timezone.now()`). -/
structure CardDict where
  card_name : String
  set_name : String
  language : String
  rarity : String
  tcgplayer_price : ℚ
  tcgplayer_last_pulled : ℤ
  product_id : Option String
  psa_10_price : ℚ
  ebay_last_pulled : ℤ
  price_delta : ℚ
  profit_potential : ℚ
  last_updated : ℤ
deriving DecidableEq

/-- `_process_card_data(card_data)`: copy the identifying fields and
replace each falsy price-derived field by `0.0` via `or 0.0`. -/
def process_card_data (card : CardPriceData) (now : ℤ) : CardDict :=
  { card_name := card.card_name
    set_name := card.set_name
    language := card.language
    rarity := card.rarity
    tcgplayer_price := orZero card.tcgplayer_price
    tcgplayer_last_pulled := now
    product_id := card.product_id
    psa_10_price := orZero card.psa_10_price
    ebay_last_pulled := now
    price_delta := orZero card.price_delta
    profit_potential := orZero card.profit_potential
    last_updated := now }

/-! ### `views.PokemonCardViewSet._save_card_to_db`

`PokemonCard.objects.update_or_create` keyed on
`(card_name, set_name, language, rarity)`; the database is modelled as a
list of rows.  Note the `defaults` dict does NOT include `price_delta`
or `profit_potential` — those are computed properties of the model, not
columns. -/

/-- Row matches the upsert key `(card_name, set_name, language, rarity)`. -/
def keyMatches (row : PokemonCard) (d : CardDict) : Bool :=
  row.card_name == d.card_name && row.set_name == d.set_name &&
  row.language == d.language && row.rarity == d.rarity

/-- The `defaults=` update applied to an existing row: overwrite the
price columns, product id and timestamps; key fields and the remaining
columns are untouched. -/
def applyDefaults (row : PokemonCard) (d : CardDict) : PokemonCard :=
  { row with
    tcgplayer_price := some d.tcgplayer_price
    tcgplayer_last_pulled := some d.tcgplayer_last_pulled
    product_id := d.product_id
    psa_10_price := some d.psa_10_price
    ebay_last_pulled := some d.ebay_last_pulled
    last_updated := some d.last_updated }

/-- The row `update_or_create` creates when no row matched: key fields
plus the `defaults`, with model defaults for the other columns. -/
def newRow (d : CardDict) : PokemonCard :=
  { card_name := d.card_name
    set_name := d.set_name
    product_id := d.product_id
    card_number := ""
    language := d.language
    rarity := d.rarity
    tcgplayer_price := some d.tcgplayer_price
    tcgplayer_market_price := none
    tcgplayer_last_pulled := some d.tcgplayer_last_pulled
    psa_10_price := some d.psa_10_price
    ebay_last_pulled := some d.ebay_last_pulled
    is_active := true
    last_updated := some d.last_updated }

/-- `_save_card_to_db` on the row list: update the (unique) matching row
in place, or append a new row. -/
def upsertCard : List PokemonCard → CardDict → List PokemonCard
  | [], d => [newRow d]
  | row :: rest, d =>
    if keyMatches row d then applyDefaults row d :: rest
    else row :: upsertCard rest d

/-- The row `_save_card_to_db` returns (the updated or created row). -/
def upsertRow (db : List PokemonCard) (d : CardDict) : PokemonCard :=
  match db.find? (fun r => keyMatches r d) with
  | some r => applyDefaults r d
  | none => newRow d

/-! ### `views.PokemonCardViewSet._create_card_details` and the
`scrape_and_save` endpoint -/

/-- `CardSetData.ALL_SETS` (`ENGLISH_SETS ++ JAPANESE_SETS`). -/
def ALL_SETS : List String :=
  ["SV08: Surging Sparks",
   "SV07: Stellar Crown",
   "SV06: Twilight Masquerade",
   "SV05: Temporal Forces",
   "SV04: Paradox Rift",
   "SV03: Obsidian Flames",
   "SV: Shrouded Fable",
   "SV: Scarlet & Violet 151",
   "SV: Paldean Fates",
   "SV7A: Paradise Dragona",
   "SV7: Stellar Miracle",
   "SV6A: Night Wanderer",
   "SV6: Transformation Mask",
   "SV5M: Cyber Judge",
   "SV5K: Wild Force",
   "SV5A: Crimson Haze",
   "SV-P Promotional Cards",
   "SV: Ancient Koraidon ex Starter Deck & Build Set",
   "SV8a: Terastal Fest ex",
   "SV8: Super Electric Breaker"]

/-- `_create_card_details`: raise `ValueError` (here `Except.error`) when
a nonempty `set_name` is not a known set; otherwise build the
`CardDetails` (set-style queries, detected by `"SV" in q or ":" in q`,
become pure set searches). -/
def create_card_details (search_query set_name language : String) :
    Except String CardDetails :=
  let is_set_search :=
    containsSubstr search_query "SV" || containsSubstr search_query ":"
  if set_name ≠ "" ∧ set_name ∉ ALL_SETS then
    Except.error ("Invalid set_name: " ++ set_name)
  else if is_set_search then
    Except.ok { name := "", set_name := search_query, language := language,
                product_id := none }
  else if set_name ≠ "" then
    Except.ok { name := search_query, set_name := set_name,
                language := language, product_id := none }
  else
    Except.ok { name := search_query, set_name := "", language := language,
                product_id := none }

/-- The HTTP response of the `scrape_and_save` endpoint: status code and
the body fields the source puts in it. -/
structure ScrapeResponse where
  status : ℕ
  error : Option String
  message : Option String
  cards : Option (List PokemonCard)
  log_id : Option ℕ
deriving DecidableEq

/-- Save every processed dict in order, threading the database; returns
the final database and the list of saved rows (`saved_cards`). -/
def save_cards : List PokemonCard → List CardDict →
    List PokemonCard × List PokemonCard
  | db, [] => (db, [])
  | db, d :: ds =>
    let row := upsertRow db d
    let rest := save_cards (upsertCard db d) ds
    (rest.1, row :: rest.2)

/-- `_scrape_and_save_async`.  Inputs beyond the query parameters:
`cached` is the response-cache lookup for the request's cache key,
`scrape_result` is what `scraper.main` produced (`Except.error` models a
raised exception), `db` the current table, `logId` the id of the created
`ScrapeLog`, `now` the clock.  Control flow follows the source: empty
(stripped) query → 400; cache hit → cached response; `ValueError` from
`_create_card_details` → 400; scraper exception → 500; no data → 404;
nothing saved → 500; else 200 with message, cards and `log_id`. -/
def scrape_and_save_async (searchQuery set_name language : String)
    (cached : Option ScrapeResponse)
    (scrape_result : Except String (List CardPriceData))
    (db : List PokemonCard) (logId : ℕ) (now : ℤ) : ScrapeResponse :=
  if strTrim searchQuery = "" then
    { status := 400, error := some "Search query is required",
      message := none, cards := none, log_id := none }
  else
    match cached with
    | some r => r
    | none =>
      match create_card_details (strTrim searchQuery) (strTrim set_name)
          language with
      | Except.error e =>
        { status := 400, error := some e, message := none, cards := none,
          log_id := none }
      | Except.ok _ =>
        match scrape_result with
        | Except.error e =>
          { status := 500, error := some ("Scraper error: " ++ e),
            message := none, cards := none, log_id := none }
        | Except.ok profit_data =>
          if profit_data = [] then
            { status := 404,
              error := some ("No data found for " ++ strTrim searchQuery),
              message := none, cards := none, log_id := none }
          else
            if (save_cards db
                (profit_data.map (fun c => process_card_data c now))).2 = []
              then
              { status := 500, error := some "Failed to save any card data",
                message := none, cards := none, log_id := none }
            else
              { status := 200, error := none,
                message := some "Successfully processed cards",
                cards := some (save_cards db
                  (profit_data.map (fun c => process_card_data c now))).2,
                log_id := some logId }

/-! ### `views.PokemonCardViewSet._scrape_all_sets_async`

The per-set scraping inside `scrape_and_save_set` is abstracted to its
outcome: either the counts it contributes (`attempted` = listings
returned, `updated` = rows saved) or the exception message.  On an
exception the source calls `scrape_log.fail(...)` for the whole-run log;
after `asyncio.gather` it unconditionally calls
`scrape_log.complete(total_attempted, total_updated)` (with the default
`failed = 0`). -/

/-- Outcome of scraping one set. -/
inductive SetResult where
  | ok (attempted updated : ℕ)
  | error (msg : String)
deriving DecidableEq

/-- One `scrape_and_save_set` call: accumulate counts on success, call
`ScrapeLog.fail` on the run log on an exception. -/
def scrape_all_sets_step (acc : ScrapeLog × ℕ × ℕ) (r : SetResult)
    (now : ℤ) : ScrapeLog × ℕ × ℕ :=
  match r with
  | SetResult.ok a u => (acc.1, acc.2.1 + a, acc.2.2 + u)
  | SetResult.error m =>
    (acc.1.fail ("Error scraping set: " ++ m) now, acc.2.1, acc.2.2)

/-- `_scrape_all_sets_async`: run every set, then finalize the log with
`complete(total_attempted, total_updated)`. -/
def scrape_all_sets_async (log : ScrapeLog) (results : List SetResult)
    (now : ℤ) : ScrapeLog :=
  let acc := results.foldl (fun a r => scrape_all_sets_step a r now)
    (log, 0, 0)
  acc.1.complete acc.2.1 acc.2.2 0 now

/-! ### Key predicates for the upsert lemmas -/

/-- Two dicts target the same `(card_name, set_name, language, rarity)`
upsert key. -/
def sameKey (d1 d2 : CardDict) : Prop :=
  d1.card_name = d2.card_name ∧ d1.set_name = d2.set_name ∧
  d1.language = d2.language ∧ d1.rarity = d2.rarity

/-- Number of stored rows matching the upsert key of `d` (the
`unique_together` constraint keeps this `≤ 1`). -/
def countKey (db : List PokemonCard) (d : CardDict) : ℕ :=
  (db.filter (fun r => keyMatches r d)).length

/-! ### Concrete sample data used by witnesses and counterexamples -/

/-- A surviving marketplace listing with market price 50 and no graded
data yet, as `extract_card_data` would emit it. -/
def mewListing : CardPriceData :=
  { card_name := "Mew ex"
    set_name := "Pokemon Card 151"
    language := "Japanese"
    rarity := "Ultra Rare"
    tcgplayer_price := some 50
    product_id := some "123"
    psa_10_price := none
    price_delta := none
    profit_potential := none
    last_updated := some 0 }

/-- A second sample listing (used by endpoint witnesses). -/
def pikaListing : CardPriceData :=
  { card_name := "Pikachu ex"
    set_name := "SV08: Surging Sparks"
    language := "English"
    rarity := "Hyper Rare"
    tcgplayer_price := some 20
    product_id := some "456"
    psa_10_price := some 80
    price_delta := some 60
    profit_potential := some 300
    last_updated := some 0 }

/-- A stored row with both prices present (used by the C1 witness). -/
def c1Card : PokemonCard :=
  { card_name := "Pikachu ex"
    set_name := "SV08: Surging Sparks"
    product_id := some "456"
    card_number := ""
    language := "English"
    rarity := "Hyper Rare"
    tcgplayer_price := some 2
    tcgplayer_market_price := none
    tcgplayer_last_pulled := some 0
    psa_10_price := some 5
    ebay_last_pulled := some 0
    is_active := true
    last_updated := some 0 }

/-- First price payload for one upsert key (used by the C9 witness). -/
def dictV1 : CardDict :=
  { card_name := "Mew ex"
    set_name := "Pokemon Card 151"
    language := "Japanese"
    rarity := "Ultra Rare"
    tcgplayer_price := 50
    tcgplayer_last_pulled := 0
    product_id := some "123"
    psa_10_price := 80
    ebay_last_pulled := 0
    price_delta := 30
    profit_potential := 60
    last_updated := 0 }

/-- Second, different price payload for the same key. -/
def dictV2 : CardDict :=
  { dictV1 with
    tcgplayer_price := 55
    tcgplayer_last_pulled := 1
    product_id := some "124"
    psa_10_price := 90
    ebay_last_pulled := 1
    price_delta := 35
    profit_potential := 70
    last_updated := 1 }

/-- The query used by the C8 witnesses. -/
def mewDetails : CardDetails :=
  { name := "Mew ex", set_name := "Pokemon Card 151", language := "Japanese",
    product_id := none }

/-- A parsed listing that passes every filter. -/
def goodElem : ListingElement :=
  { title := " Mew ex 151/165 SAR "
    price := 50
    set_name := "Pokemon Card 151"
    product_url := "https://www.tcgplayer.com/product/777/pokemon-mew-ex" }

/-- Same listing with a non-positive price. -/
def lowElem : ListingElement := { goodElem with price := -1 }

/-- Same listing but the title lacks the query term `mew`. -/
def offTitleElem : ListingElement := { goodElem with title := "Pikachu ex" }

/-- Same listing but the link has no extractable product id. -/
def noIdElem : ListingElement := { goodElem with product_url := "https://x.com/nothing" }

/-!
## Theorems
-/

/-- The code's estimate equals the specification's three-tier rule on
every input (the index clamps `max 0 _` / `min (len-1) _` are no-ops for
`len ≥ 3`). -/
theorem calculate_average_price_eq_spec (prices : List ℚ) :
    calculate_average_price prices = averagePriceSpec prices := by
  unfold calculate_average_price averagePriceSpec
  by_cases h : prices = []
  · simp [h]
  · by_cases h3 : prices.length < 3
    · simp [h, h3]
    · have hlen : 3 ≤ prices.length := Nat.not_lt.mp h3
      have hmin : min (prices.length - 1) (3 * prices.length / 4)
          = 3 * prices.length / 4 := by omega
      have hmax : max 0 (prices.length / 4) = prices.length / 4 := by omega
      simp [h, h3, hmin, hmax]

/-- Claim C2: `calculate_average_price` follows the three-tier rule —
absent for an empty list, the arithmetic mean for 1–2 prices, and for
3 or more prices the mean of the subset within
`[Q1 - 1.5·IQR, Q3 + 1.5·IQR]` (Q1/Q3 at positions `len/4` and
`3·len/4` of the sorted list), falling back to the mean of all prices if
the subset is empty; on `[5, 7]` it yields 6 and on
`[10, 10, 10, 10, 1000]` it yields 10. -/
theorem C2_average_price_three_tier :
    (∀ prices : List ℚ,
        calculate_average_price prices = averagePriceSpec prices) ∧
    calculate_average_price [] = none ∧
    calculate_average_price [5, 7] = some 6 ∧
    calculate_average_price [10, 10, 10, 10, 1000] = some 10 := by
  refine ⟨calculate_average_price_eq_spec, by decide, ?_, ?_⟩
  · norm_num [calculate_average_price]
    simp
  · norm_num [calculate_average_price, List.insertionSort, List.orderedInsert,
      List.filter]
    simp

/-- Claim C7: for a non-empty price list the estimate is never absent —
when the IQR filter empties the sample the code falls back to the mean
of all prices. -/
theorem C7_nonempty_never_none (prices : List ℚ) (h : prices ≠ []) :
    (calculate_average_price prices).isSome := by
  unfold calculate_average_price
  rw [if_neg h]
  by_cases h3 : prices.length < 3
  · rw [if_pos h3]; rfl
  · rw [if_neg h3]
    dsimp only
    split <;> rfl

/-- Witness for C7 at the concrete list `[5, 7]`. -/
theorem C7_witness : (calculate_average_price [5, 7]).isSome :=
  C7_nonempty_never_none [5, 7] (by decide)

/-- Claim C1 (with the `MinValueValidator(0.00)` constraint of the
`tcgplayer_price` column as hypothesis): `profit_potential` is `None`
iff `price_delta` is `None`, or `tcgplayer_price` is `None` or zero. -/
theorem C1_profit_potential_none_iff (c : PokemonCard)
    (hval : c.tcgplayer_price = none ∨
      ∃ t, c.tcgplayer_price = some t ∧ 0 ≤ t) :
    c.profit_potential = none ↔
      (c.price_delta = none ∨ c.tcgplayer_price = none ∨
        c.tcgplayer_price = some 0) := by
  unfold PokemonCard.profit_potential
  rcases hd : c.price_delta with _ | d
  · simp
  · rcases ht : c.tcgplayer_price with _ | t
    · simp
    · have h0 : (0 : ℚ) ≤ t := by
        rcases hval with h | ⟨t', ht', h'⟩
        · rw [ht] at h; cases h
        · rw [ht] at ht'; injection ht' with he; rw [he]; exact h'
      by_cases hz : t = 0
      · subst hz; simp
      · have hpos : (0 : ℚ) < t := lt_of_le_of_ne h0 (Ne.symm hz)
        simp [hz, hpos, hd]

/-- Witness for C1 on a concrete card with both prices present. -/
theorem C1_witness :
    c1Card.profit_potential = none ↔
      (c1Card.price_delta = none ∨ c1Card.tcgplayer_price = none ∨
        c1Card.tcgplayer_price = some 0) :=
  C1_profit_potential_none_iff c1Card (Or.inr ⟨2, rfl, by norm_num⟩)

/-- Claim C6: `complete(a, u, 0)` gives status `completed`;
`complete(a, u, f)` with `f > 0` gives `partial`; `fail(msg)` gives
`failed` with `msg` recorded; the finalization timestamp is the current
clock (hence `≥ started_at` whenever the clock has not gone backwards)
and `execution_time` is exactly `completed_at - started_at`. -/
theorem C6_finalization_semantics (log : ScrapeLog) (a u f : ℕ)
    (msg : String) (now : ℤ) :
    (log.complete a u 0 now).status = Status.completed ∧
    (0 < f → (log.complete a u f now).status = Status.partiallyCompleted) ∧
    (log.fail msg now).status = Status.failed ∧
    (log.fail msg now).error_message = some msg ∧
    (log.started_at ≤ now →
      (log.complete a u f now).completed_at = some now ∧
      (log.fail msg now).completed_at = some now ∧
      (∀ t, (log.complete a u f now).completed_at = some t →
        log.started_at ≤ t) ∧
      (∀ t, (log.fail msg now).completed_at = some t →
        log.started_at ≤ t) ∧
      (log.complete a u f now).execution_time
        = some (now - log.started_at) ∧
      (log.fail msg now).execution_time = some (now - log.started_at)) := by
  refine ⟨by simp [ScrapeLog.complete], ?_, rfl, rfl, ?_⟩
  · intro hf
    simp [ScrapeLog.complete, hf]
  · intro hle
    refine ⟨rfl, rfl, ?_, ?_, rfl, rfl⟩
    · intro t hteq
      simp only [ScrapeLog.complete] at hteq
      injection hteq with he
      rwa [he] at hle
    · intro t hteq
      simp only [ScrapeLog.fail] at hteq
      injection hteq with he
      rwa [he] at hle

/-- Witness for C6: `complete(5,5,0)`, `complete(5,3,2)` and `fail "x"`
on a fresh log at clock 5. -/
theorem C6_witness :
    ((freshLog 0 "u").complete 5 5 0 5).status = Status.completed ∧
    ((freshLog 0 "u").complete 5 3 2 5).status = Status.partiallyCompleted ∧
    ((freshLog 0 "u").fail "x" 5).status = Status.failed ∧
    ((freshLog 0 "u").complete 5 3 2 5).completed_at = some 5 ∧
    ((freshLog 0 "u").complete 5 3 2 5).execution_time = some 5 := by
  have h1 := C6_finalization_semantics (freshLog 0 "u") 5 5 0 "x" 5
  have h2 := C6_finalization_semantics (freshLog 0 "u") 5 3 2 "x" 5
  have h2' := h2.2.2.2.2 (by norm_num [freshLog])
  exact ⟨h1.1, h2.2.1 (by norm_num), h2.2.2.1, h2'.1,
    by rw [h2'.2.2.2.2.1]; norm_num [freshLog]⟩

/-- Claim C3 (code bug): in `_scrape_all_sets_async` a per-set exception
finalizes the run log via `fail` (status `failed`), yet the run then
unconditionally finalizes it again via `complete`, moving the same
finalized log to `completed` — finalization is not terminal. -/
theorem C3_failed_log_later_completed :
    (scrape_all_sets_step (freshLog 0 "anonymous", 0, 0)
        (SetResult.error "boom") 5).1.status = Status.failed ∧
    (scrape_all_sets_async (freshLog 0 "anonymous")
        [SetResult.error "boom"] 5).status = Status.completed := by decide

/-- A listing whose market price is present is never dropped by the
reconciliation body. -/
theorem reconcile_listing_isSome (card : CardPriceData) (e : Option ℚ)
    (h : card.tcgplayer_price.isSome) :
    (reconcile_listing card e).isSome := by
  unfold reconcile_listing
  rcases e with _ | p
  · rfl
  · by_cases hp : p = 0
    · simp [hp]
    · rcases hc : card.tcgplayer_price with _ | t
      · rw [hc] at h; cases h
      · simp [hp]

/-- Counterexample to claim C4 as stated: for the listing `mewListing`
(market price 50) and the *present* auction estimate `some 0`, the
emitted record keeps all graded-price fields null instead of carrying
`price_delta = 0 - 50`; Python's `if ebay_price:` treats the present
estimate `0.0` like an absent one. -/
theorem C4_counterexample :
    process_card_batch [(mewListing, some 0)] = [mewListing] ∧
    mewListing.psa_10_price = none ∧
    mewListing.price_delta = none ∧
    (some (0 : ℚ)) ≠ none := by decide

/-- Claim C4 as amended: every listing with a market price is emitted;
when the estimate is present **and nonzero** the emitted record carries
`price_delta = psa_10_price - tcgplayer_price` and
`profit_potential = (price_delta / tcgplayer_price) * 100`; when the
estimate is absent **or zero** the record is still emitted with its
graded-price fields left null. -/
theorem C4_reconciliation_amended (card : CardPriceData) (t : ℚ)
    (e : Option ℚ) (ht : card.tcgplayer_price = some t) :
    ((e = none ∨ e = some 0) → reconcile_listing card e = some card) ∧
    (∀ p : ℚ, e = some p → p ≠ 0 →
      reconcile_listing card e =
        some { card with
               psa_10_price := some p
               price_delta := some (p - t)
               profit_potential := some ((p - t) / t * 100) }) ∧
    (∀ listings : List (CardPriceData × Option ℚ),
      (∀ le ∈ listings, le.1.tcgplayer_price.isSome) →
      (process_card_batch listings).length = listings.length) := by
  refine ⟨?_, ?_, ?_⟩
  · rintro (rfl | rfl)
    · rfl
    · simp [reconcile_listing]
  · rintro p rfl hp
    simp [reconcile_listing, hp, ht]
  · intro listings
    induction listings with
    | nil => intro _; rfl
    | cons le rest ih =>
      intro hall
      have hthis := reconcile_listing_isSome le.1 le.2
        (hall le (List.mem_cons_self le rest))
      rcases Option.isSome_iff_exists.mp hthis with ⟨out, hout⟩
      have hrest := ih (fun x hx => hall x (List.mem_cons_of_mem le hx))
      simp only [process_card_batch] at hrest ⊢
      rw [List.filterMap_cons, hout, List.length_cons, hrest]
      simp

/-- Witness for the amended C4 on `mewListing` with estimates 80, `none`
and `some 0`. -/
theorem C4_witness :
    reconcile_listing mewListing (some 80) =
      some { mewListing with
             psa_10_price := some 80
             price_delta := some (80 - 50)
             profit_potential := some ((80 - 50) / 50 * 100) } ∧
    reconcile_listing mewListing none = some mewListing ∧
    reconcile_listing mewListing (some 0) = some mewListing ∧
    process_card_batch [(mewListing, some 80)] ≠ [] :=
  ⟨(C4_reconciliation_amended mewListing 50 (some 80) rfl).2.1 80 rfl
      (by norm_num),
   (C4_reconciliation_amended mewListing 50 none rfl).1 (Or.inl rfl),
   (C4_reconciliation_amended mewListing 50 (some 0) rfl).1 (Or.inr rfl),
   by
    have h := (C4_reconciliation_amended mewListing 50 (some 80) rfl).2.2
      [(mewListing, some 80)] (by decide)
    intro hcon
    rw [hcon] at h
    cases h⟩

/-- The `defaults` update leaves the upsert key untouched. -/
theorem keyMatches_applyDefaults (row : PokemonCard) (d d' : CardDict) :
    keyMatches (applyDefaults row d) d' = keyMatches row d' := rfl

/-- A freshly created row matches the key it was created for. -/
theorem keyMatches_newRow (d : CardDict) : keyMatches (newRow d) d = true := by
  simp [keyMatches, newRow]

/-- Key matching only depends on the key. -/
theorem keyMatches_congr (r : PokemonCard) (d1 d2 : CardDict)
    (h : sameKey d1 d2) : keyMatches r d1 = keyMatches r d2 := by
  obtain ⟨h1, h2, h3, h4⟩ := h
  simp [keyMatches, h1, h2, h3, h4]

/-- `countKey` only depends on the key. -/
theorem countKey_congr (db : List PokemonCard) (d1 d2 : CardDict)
    (h : sameKey d1 d2) : countKey db d1 = countKey db d2 := by
  unfold countKey
  congr 1
  exact List.filter_congr (fun r _ => keyMatches_congr r d1 d2 h)

/-- With no matching row, every row of the database misses the key. -/
theorem countKey_zero_not_mem (db : List PokemonCard) (d : CardDict)
    (h : countKey db d = 0) :
    ∀ r ∈ db, keyMatches r d = false := by
  intro r hr
  by_contra hne
  have htrue : keyMatches r d = true := by
    cases hkm : keyMatches r d
    · exact absurd hkm hne
    · rfl
  have : r ∈ db.filter (fun x => keyMatches x d) :=
    List.mem_filter.mpr ⟨hr, htrue⟩
  unfold countKey at h
  rw [List.length_eq_zero] at h
  rw [h] at this
  cases this

/-- Core upsert lemma: under the uniqueness invariant, an upsert leaves
exactly one row for the key, and every row matching the key carries the
payload's price columns (overwritten, not merged). -/
theorem upsert_key_unique (db : List PokemonCard) (d : CardDict)
    (h : countKey db d ≤ 1) :
    countKey (upsertCard db d) d = 1 ∧
    ∀ r ∈ upsertCard db d, keyMatches r d = true →
      r.tcgplayer_price = some d.tcgplayer_price ∧
      r.psa_10_price = some d.psa_10_price ∧
      r.product_id = d.product_id := by
  induction db with
  | nil =>
    constructor
    · simp [upsertCard, countKey, keyMatches_newRow]
    · intro r hr hk
      simp only [upsertCard, List.mem_singleton] at hr
      subst hr
      exact ⟨rfl, rfl, rfl⟩
  | cons row rest ih =>
    by_cases hk : keyMatches row d
    · have hcount : countKey (row :: rest) d = countKey rest d + 1 := by
        simp [countKey, List.filter, hk]
      have hrest : countKey rest d = 0 := by omega
      have hnomatch := countKey_zero_not_mem rest d hrest
      constructor
      · simp only [upsertCard, hk, if_pos]
        simp [countKey, List.filter, keyMatches_applyDefaults, hk, hrest]
        exact hnomatch
      · intro r hr hkr
        simp only [upsertCard, hk, if_pos, List.mem_cons] at hr
        rcases hr with rfl | hr
        · exact ⟨rfl, rfl, rfl⟩
        · rw [hnomatch r hr] at hkr
          cases hkr
    · have hkfalse : keyMatches row d = false := by
        cases hkm : keyMatches row d
        · rfl
        · exact absurd hkm hk
      have hcount : countKey (row :: rest) d = countKey rest d := by
        simp [countKey, List.filter, hkfalse]
      have hle : countKey rest d ≤ 1 := by omega
      obtain ⟨ih1, ih2⟩ := ih hle
      constructor
      · simp only [upsertCard, hkfalse, Bool.false_eq_true, if_neg,
          if_false]
        simpa [countKey, List.filter, hkfalse] using ih1
      · intro r hr hkr
        simp only [upsertCard, hkfalse, Bool.false_eq_true, if_false,
          List.mem_cons] at hr
        rcases hr with rfl | hr
        · rw [hkfalse] at hkr
          cases hkr
        · exact ih2 r hr hkr

/-- Claim C5 (implicit): `_process_card_data` replaces a `None`
`tcgplayer_price`, `psa_10_price`, `price_delta` or `profit_potential`
with `0.0` in the dict it builds, and the row `_save_card_to_db` writes
stores those dict values for its price columns — so a card with no
auction match is stored with `psa_10_price = 0.0`, never null. -/
theorem C5_none_price_fields_become_zero (card : CardPriceData) (now : ℤ)
    (db : List PokemonCard)
    (hdb : countKey db (process_card_data card now) ≤ 1) :
    ((card.tcgplayer_price = none →
        (process_card_data card now).tcgplayer_price = 0) ∧
     (card.psa_10_price = none →
        (process_card_data card now).psa_10_price = 0) ∧
     (card.price_delta = none →
        (process_card_data card now).price_delta = 0) ∧
     (card.profit_potential = none →
        (process_card_data card now).profit_potential = 0)) ∧
    (∀ r ∈ upsertCard db (process_card_data card now),
       keyMatches r (process_card_data card now) = true →
       r.tcgplayer_price = some (process_card_data card now).tcgplayer_price ∧
       r.psa_10_price = some (process_card_data card now).psa_10_price) ∧
    (card.psa_10_price = none →
      ∀ r ∈ upsertCard db (process_card_data card now),
        keyMatches r (process_card_data card now) = true →
        r.psa_10_price = some 0) := by
  have hu := upsert_key_unique db (process_card_data card now) hdb
  refine ⟨⟨?_, ?_, ?_, ?_⟩, ?_, ?_⟩
  · intro h; simp [process_card_data, orZero, h]
  · intro h; simp [process_card_data, orZero, h]
  · intro h; simp [process_card_data, orZero, h]
  · intro h; simp [process_card_data, orZero, h]
  · intro r hr hk
    exact ⟨(hu.2 r hr hk).1, (hu.2 r hr hk).2.1⟩
  · intro h r hr hk
    have := (hu.2 r hr hk).2.1
    rw [this]
    simp [process_card_data, orZero, h]

/-- Witness for C5: `mewListing` has no auction match (`psa_10_price`
is `None`), and after processing and upserting into an empty table the
stored row carries `psa_10_price = some 0`. -/
theorem C5_witness :
    (process_card_data mewListing 0).psa_10_price = 0 ∧
    ∀ r ∈ upsertCard [] (process_card_data mewListing 0),
      keyMatches r (process_card_data mewListing 0) = true →
      r.psa_10_price = some 0 := by
  have h := C5_none_price_fields_become_zero mewListing 0 [] (by decide)
  exact ⟨h.1.2.1 rfl, h.2.2 rfl⟩

/-- Claim C9: upserting two payloads with the same
`(card_name, set_name, language, rarity)` key in sequence (under the
`unique_together` invariant) leaves exactly one row for that key, whose
price columns are the second payload's values — overwrite, not merge. -/
theorem C9_second_upsert_overwrites (db : List PokemonCard)
    (d1 d2 : CardDict) (hkey : sameKey d1 d2)
    (hdb : countKey db d2 ≤ 1) :
    countKey (upsertCard (upsertCard db d1) d2) d2 = 1 ∧
    ∀ r ∈ upsertCard (upsertCard db d1) d2, keyMatches r d2 = true →
      r.tcgplayer_price = some d2.tcgplayer_price ∧
      r.psa_10_price = some d2.psa_10_price ∧
      r.product_id = d2.product_id := by
  have hdb1 : countKey db d1 ≤ 1 := by
    rw [countKey_congr db d1 d2 hkey]
    exact hdb
  have h1 := upsert_key_unique db d1 hdb1
  have h2 : countKey (upsertCard db d1) d2 ≤ 1 := by
    rw [← countKey_congr (upsertCard db d1) d1 d2 hkey]
    exact le_of_eq h1.1
  exact upsert_key_unique (upsertCard db d1) d2 h2

/-- Witness for C9: the two concrete payloads `dictV1` / `dictV2` for
the `Mew ex` key, upserted in sequence into an empty table. -/
theorem C9_witness :
    countKey (upsertCard (upsertCard [] dictV1) dictV2) dictV2 = 1 ∧
    ∀ r ∈ upsertCard (upsertCard [] dictV1) dictV2,
      keyMatches r dictV2 = true →
      r.tcgplayer_price = some dictV2.tcgplayer_price ∧
      r.psa_10_price = some dictV2.psa_10_price ∧
      r.product_id = dictV2.product_id :=
  C9_second_upsert_overwrites [] dictV1 dictV2 ⟨rfl, rfl, rfl, rfl⟩
    (by decide)

/-- Claim C8: the listing filter rejects (returns `None` for) any parsed
listing whose price is not strictly positive or exceeds 100000, any
listing missing (case-insensitively) some whitespace-separated term of a
given query name in its title, and any listing whose detail link yields
no product id; every accepted listing satisfies all three conditions. -/
theorem C8_listing_filter (elem : ListingElement)
    (card_details : CardDetails) (rarity : String) (now : ℤ) :
    (elem.price ≤ 0 ∨ elem.price > 100000 →
      extract_card_data elem card_details rarity now = none) ∧
    (card_details.name ≠ "" →
      (∃ term ∈ splitTerms (strToLower card_details.name),
        containsSubstr (strToLower (strTrim elem.title)) term = false) →
      extract_card_data elem card_details rarity now = none) ∧
    (extract_product_id elem.product_url = none →
      extract_card_data elem card_details rarity now = none) ∧
    (∀ out, extract_card_data elem card_details rarity now = some out →
      (0 < elem.price ∧ elem.price ≤ 100000) ∧
      (card_details.name ≠ "" →
        ∀ term ∈ splitTerms (strToLower card_details.name),
          containsSubstr (strToLower (strTrim elem.title)) term = true) ∧
      ∃ pid, extract_product_id elem.product_url = some pid ∧
        out.product_id = some pid) := by
  unfold extract_card_data
  by_cases hp : elem.price ≤ 0 ∨ elem.price > 100000
  · rw [if_pos hp]
    exact ⟨fun _ => rfl, fun _ _ => rfl, fun _ => rfl,
      fun out hout => by cases hout⟩
  · rw [if_neg hp]
    push_neg at hp
    by_cases hterm : card_details.name ≠ "" ∧
        ¬ (splitTerms (strToLower card_details.name)).all
            (fun term => containsSubstr (strToLower (strTrim elem.title)) term)
          = true
    · rw [if_pos hterm]
      exact ⟨fun _ => rfl, fun _ _ => rfl, fun _ => rfl,
        fun out hout => by cases hout⟩
    · rw [if_neg hterm]
      have hall : card_details.name ≠ "" →
          (splitTerms (strToLower card_details.name)).all
            (fun term =>
              containsSubstr (strToLower (strTrim elem.title)) term) = true := by
        intro hname
        by_contra hno
        exact hterm ⟨hname, hno⟩
      rcases hpid : extract_product_id elem.product_url with _ | pid
      · exact ⟨fun _ => rfl, fun _ _ => rfl, fun _ => rfl,
          fun out hout => by simp at hout⟩
      · refine ⟨fun hbad => ?_, fun hname hex => ?_, fun hnone => ?_,
          fun out hout => ?_⟩
        · rcases hbad with hb | hb
          · exact absurd hb (not_le.mpr hp.1)
          · exact absurd hb (not_lt.mpr hp.2)
        · rcases hex with ⟨term, hmem, hfalse⟩
          have := List.all_eq_true.mp (hall hname) term hmem
          rw [this] at hfalse
          cases hfalse
        · exact Option.noConfusion hnone
        · refine ⟨hp, fun hname => List.all_eq_true.mp (hall hname), pid,
            rfl, ?_⟩
          injection hout with he
          rw [← he]

/-- Witness for C8: the filter at four concrete listings — a surviving
one, a non-positive price, a title missing the query term, and a link
without a product id. -/
theorem C8_witness :
    extract_card_data lowElem mewDetails "Ultra Rare" 0 = none ∧
    extract_card_data offTitleElem mewDetails "Ultra Rare" 0 = none ∧
    extract_card_data noIdElem mewDetails "Ultra Rare" 0 = none ∧
    (0 < goodElem.price ∧ goodElem.price ≤ 100000) := by
  have hacc : (extract_card_data goodElem mewDetails "Ultra Rare" 0).isSome :=
    by decide
  rcases Option.isSome_iff_exists.mp hacc with ⟨out, hout⟩
  exact ⟨(C8_listing_filter lowElem mewDetails "Ultra Rare" 0).1
      (Or.inl (by norm_num [lowElem, goodElem])),
    (C8_listing_filter offTitleElem mewDetails "Ultra Rare" 0).2.1
      (by decide) ⟨"mew", by decide, by decide⟩,
    (C8_listing_filter noIdElem mewDetails "Ultra Rare" 0).2.2.1 (by decide),
    ((C8_listing_filter goodElem mewDetails "Ultra Rare" 0).2.2.2 out
      hout).1⟩

/-- When the (stripped) `set_name` is empty or a known set,
`_create_card_details` does not raise. -/
theorem create_card_details_ok (q s l : String)
    (h : s = "" ∨ s ∈ ALL_SETS) :
    ∃ cd, create_card_details q s l = Except.ok cd := by
  unfold create_card_details
  have hcond : ¬ (s ≠ "" ∧ s ∉ ALL_SETS) := by
    rcases h with h | h
    · intro hc; exact hc.1 h
    · intro hc; exact hc.2 h
  rw [if_neg hcond]
  by_cases hset : (containsSubstr q "SV" || containsSubstr q ":") = true
  · rw [if_pos hset]
    exact ⟨_, rfl⟩
  · rw [if_neg hset]
    by_cases hs : s ≠ ""
    · rw [if_pos hs]
      exact ⟨_, rfl⟩
    · rw [if_neg hs]
      exact ⟨_, rfl⟩

/-- Claim C10: with no cached response, the endpoint returns 400 for a
missing/blank `searchQuery` or an unknown nonempty `set_name`, 500 when
the scraper raises, 404 when it yields no data, and otherwise 200 with
`message`, `cards` and `log_id` in the body. -/
theorem C10_endpoint_statuses (searchQuery set_name language : String)
    (scr : Except String (List CardPriceData)) (db : List PokemonCard)
    (logId : ℕ) (now : ℤ) (msg : String) (data : List CardPriceData) :
    (strTrim searchQuery = "" →
      (scrape_and_save_async searchQuery set_name language none scr db
        logId now).status = 400) ∧
    (strTrim searchQuery ≠ "" → strTrim set_name ≠ "" →
      strTrim set_name ∉ ALL_SETS →
      (scrape_and_save_async searchQuery set_name language none scr db
        logId now).status = 400) ∧
    (strTrim searchQuery ≠ "" →
      (strTrim set_name = "" ∨ strTrim set_name ∈ ALL_SETS) →
      scr = Except.error msg →
      (scrape_and_save_async searchQuery set_name language none scr db
        logId now).status = 500) ∧
    (strTrim searchQuery ≠ "" →
      (strTrim set_name = "" ∨ strTrim set_name ∈ ALL_SETS) →
      scr = Except.ok [] →
      (scrape_and_save_async searchQuery set_name language none scr db
        logId now).status = 404) ∧
    (strTrim searchQuery ≠ "" →
      (strTrim set_name = "" ∨ strTrim set_name ∈ ALL_SETS) →
      scr = Except.ok data → data ≠ [] →
      (scrape_and_save_async searchQuery set_name language none scr db
          logId now).status = 200 ∧
      (scrape_and_save_async searchQuery set_name language none scr db
          logId now).message.isSome ∧
      (scrape_and_save_async searchQuery set_name language none scr db
          logId now).cards.isSome ∧
      (scrape_and_save_async searchQuery set_name language none scr db
          logId now).log_id = some logId) := by
  refine ⟨?_, ?_, ?_, ?_, ?_⟩
  · intro h
    unfold scrape_and_save_async
    rw [if_pos h]
  · intro hsq hsn hnotin
    unfold scrape_and_save_async
    rw [if_neg hsq]
    have herr : create_card_details (strTrim searchQuery) (strTrim set_name)
        language = Except.error ("Invalid set_name: " ++ strTrim set_name) := by
      unfold create_card_details
      rw [if_pos ⟨hsn, hnotin⟩]
    rw [herr]
  · rintro hsq hset rfl
    unfold scrape_and_save_async
    rw [if_neg hsq]
    rcases create_card_details_ok (strTrim searchQuery) (strTrim set_name)
      language hset with ⟨cd, hcd⟩
    rw [hcd]
  · rintro hsq hset rfl
    unfold scrape_and_save_async
    rw [if_neg hsq]
    rcases create_card_details_ok (strTrim searchQuery) (strTrim set_name)
      language hset with ⟨cd, hcd⟩
    rw [hcd]
    dsimp only
    rw [if_pos rfl]
  · rintro hsq hset rfl hdata
    unfold scrape_and_save_async
    rw [if_neg hsq]
    rcases create_card_details_ok (strTrim searchQuery) (strTrim set_name)
      language hset with ⟨cd, hcd⟩
    rw [hcd]
    rcases data with _ | ⟨d, ds⟩
    · exact absurd rfl hdata
    · have hsaved : (save_cards db
          (List.map (fun c => process_card_data c now) (d :: ds))).2 ≠ [] := by
        rw [List.map_cons]
        intro hcon
        cases hcon
      dsimp only
      rw [if_neg (by simp : ¬ (d :: ds : List CardPriceData) = []),
        if_neg hsaved]
      exact ⟨rfl, rfl, rfl, rfl⟩

/-- Witness for C10: the endpoint at five concrete requests — blank
query, unknown set name, scraper failure, no data, and a successful
scrape of one listing. -/
theorem C10_witness :
    (scrape_and_save_async "   " "" "English" none (Except.ok []) [] 1
      0).status = 400 ∧
    (scrape_and_save_async "Mew ex" "Fake Set" "English" none
      (Except.ok []) [] 1 0).status = 400 ∧
    (scrape_and_save_async "Mew ex" "" "English" none
      (Except.error "boom") [] 1 0).status = 500 ∧
    (scrape_and_save_async "Mew ex" "" "English" none (Except.ok []) [] 1
      0).status = 404 ∧
    (scrape_and_save_async "Mew ex" "" "English" none
      (Except.ok [mewListing]) [] 7 0).status = 200 ∧
    (scrape_and_save_async "Mew ex" "" "English" none
      (Except.ok [mewListing]) [] 7 0).log_id = some 7 := by
  have h5 := (C10_endpoint_statuses "Mew ex" "" "English"
    (Except.ok [mewListing]) [] 7 0 "boom" [mewListing]).2.2.2.2
    (by decide) (Or.inl (by decide)) rfl (by decide)
  exact ⟨(C10_endpoint_statuses "   " "" "English" (Except.ok []) [] 1 0
      "boom" []).1 (by decide),
    (C10_endpoint_statuses "Mew ex" "Fake Set" "English" (Except.ok []) []
      1 0 "boom" []).2.1 (by decide) (by decide) (by decide),
    (C10_endpoint_statuses "Mew ex" "" "English" (Except.error "boom") []
      1 0 "boom" []).2.2.1 (by decide) (Or.inl (by decide)) rfl,
    (C10_endpoint_statuses "Mew ex" "" "English" (Except.ok []) [] 1 0
      "boom" []).2.2.2.1 (by decide) (Or.inl (by decide)) rfl,
    h5.1, h5.2.2.2⟩
